import Mathlib

/-!
Verification of the analysis workflow engine of `ai-hedge-fund-gui`.

The definitions below are a shallow embedding of `src/main.py`:

* `parse_hedge_fund_response` embeds the decision-payload parser
  (src/main.py lines 49-61).
* `create_workflow` embeds the workflow graph builder
  (src/main.py lines 124-154), with langgraph's `StateGraph`
  modelled as a node list / edge list value (`Graph`) and the
  library sentinel `END` as the distinguished name `ENDKEY`.
* `mkPortfolio` embeds the portfolio initialisation
  (src/main.py lines 261-283).
* `runHedgeFund` embeds `run_hedge_fund` (lines 64-116) and
  `runHedgeFundGui` / `runFromGui` embed `run_hedge_fund_gui`
  (lines 157-317) and `run_from_gui` (lines 508-517).

External collaborators (the compiled langgraph application and the
analyst/risk/portfolio capabilities behind `agent.invoke`, and the
JSON decoder `json.loads`) are passed in as function parameters; all
control flow that belongs to the repository is embedded directly.
Python `float` inputs are modelled as `ℚ`: the embedded code only
stores and passes them (no arithmetic), so no rounding is lost.
Python exceptions of the `Exception` hierarchy are modelled by the
`PyExc` type together with `Except`; `try/except` blocks become
`match` on the `Except` value.
-/

namespace AiHedgeFund

/-- A JSON value, the result type of the (modelled) `json.loads`.
Numbers are restricted to integers; this subset is only used to build
concrete witnesses, the theorems about the parser are parametric in
the decoder. -/
inductive Json where
  | null : Json
  | bool (b : Bool) : Json
  | num (n : Int) : Json
  | str (s : String) : Json
  | arr (items : List Json) : Json
  | obj (fields : List (String × Json)) : Json
deriving BEq

/-- A Python value handed to the parser: either a `str` or some
non-string value (the `TypeError` case of `json.loads`). -/
inductive PyVal where
  | pyStr (s : String) : PyVal
  | pyNonStr (desc : String) : PyVal
deriving DecidableEq

/-- A Python exception of the `Exception` hierarchy, as raised by the
embedded code or by an external collaborator. -/
inductive PyExc where
  | valueError (msg : String) : PyExc
  | keyError (key : String) : PyExc
  | exc (msg : String) : PyExc
deriving DecidableEq

/-- `str(e)` for a `PyExc` (Python renders `KeyError('k')` as `'k'`). -/
def excMessage : PyExc → String
  | PyExc.valueError msg => msg
  | PyExc.keyError key => "'" ++ key ++ "'"
  | PyExc.exc msg => msg

/-- Stand-in for `traceback.format_exc()`: the embedding abstracts the
traceback text to a deterministic function of the exception. -/
def tracebackOf (e : PyExc) : String :=
  "Traceback (most recent call last): " ++ excMessage e

/-- Embedding of `parse_hedge_fund_response` (src/main.py:49-61): it
applies the JSON decoder and converts every decoding failure
(`json.JSONDecodeError`), type mismatch (`TypeError`, the non-string
case) and any other error into the return value `None`; no exception
escapes. The decoder (`json.loads`, an external library) is a
parameter. -/
def parse_hedge_fund_response (decode : String → Except String Json)
    (response : PyVal) : Option Json :=
  match response with
  | PyVal.pyStr s =>
    match decode s with
    | Except.ok j => some j
    | Except.error _ => none
  | PyVal.pyNonStr _ => none

/-- Numeric value of a decimal digit character. -/
def digitVal (c : Char) : Nat := c.toNat - 48

/-- Drop leading JSON whitespace. -/
def skipWs : List Char → List Char
  | [] => []
  | c :: rest =>
    if c = ' ' ∨ c = '\t' ∨ c = '\n' ∨ c = '\r' then skipWs rest
    else c :: rest

/-- Read a run of decimal digits, accumulating into `acc`. -/
def readNatFrom : List Char → Nat → Nat × List Char
  | [], acc => (acc, [])
  | c :: rest, acc =>
    if c.isDigit then readNatFrom rest (10 * acc + digitVal c)
    else (acc, c :: rest)

/-- Translate a character following a backslash in a JSON string. -/
def escChar : Char → Char
  | 'n' => '\n'
  | 't' => '\t'
  | 'r' => '\r'
  | c => c

/-- Read the body of a JSON string literal (opening quote already
consumed); returns the accumulated characters and the rest. -/
def readStrBody : List Char → List Char → Option (List Char × List Char)
  | [], _ => none
  | c :: rest, acc =>
    if c = '"' then some (acc.reverse, rest)
    else if c = '\\' then
      match rest with
      | [] => none
      | c₂ :: rest₂ => readStrBody rest₂ (escChar c₂ :: acc)
    else readStrBody rest (c :: acc)

mutual

/-- Fuel-indexed JSON value reader (model of the `json` library's
decoder on the subset described at `Json`). -/
def readJsonVal : Nat → List Char → Except String (Json × List Char)
  | 0, _ => Except.error "fuel exhausted"
  | Nat.succ fuel, cs =>
    match skipWs cs with
    | 'n' :: 'u' :: 'l' :: 'l' :: r => Except.ok (Json.null, r)
    | 't' :: 'r' :: 'u' :: 'e' :: r => Except.ok (Json.bool true, r)
    | 'f' :: 'a' :: 'l' :: 's' :: 'e' :: r => Except.ok (Json.bool false, r)
    | '"' :: r =>
      match readStrBody r [] with
      | some (chars, r₂) => Except.ok (Json.str (String.mk chars), r₂)
      | none => Except.error "unterminated string"
    | '[' :: r =>
      match skipWs r with
      | ']' :: r₂ => Except.ok (Json.arr [], r₂)
      | r₂ => readJsonItems fuel r₂ []
    | '{' :: r =>
      match skipWs r with
      | '}' :: r₂ => Except.ok (Json.obj [], r₂)
      | r₂ => readJsonFields fuel r₂ []
    | '-' :: c :: r =>
      if c.isDigit then
        match readNatFrom (c :: r) 0 with
        | (n, r₂) => Except.ok (Json.num (-(n : Int)), r₂)
      else Except.error "expecting value"
    | c :: r =>
      if c.isDigit then
        match readNatFrom (c :: r) 0 with
        | (n, r₂) => Except.ok (Json.num (n : Int), r₂)
      else Except.error "expecting value"
    | [] => Except.error "expecting value"

/-- Reads the remaining items of a JSON array. -/
def readJsonItems : Nat → List Char → List Json → Except String (Json × List Char)
  | 0, _, _ => Except.error "fuel exhausted"
  | Nat.succ fuel, cs, acc =>
    match readJsonVal fuel cs with
    | Except.error e => Except.error e
    | Except.ok (j, r) =>
      match skipWs r with
      | ',' :: r₂ => readJsonItems fuel r₂ (j :: acc)
      | ']' :: r₂ => Except.ok (Json.arr (acc.reverse ++ [j]), r₂)
      | _ => Except.error "expecting , or ] delimiter"

/-- Reads the remaining fields of a JSON object. -/
def readJsonFields : Nat → List Char → List (String × Json) → Except String (Json × List Char)
  | 0, _, _ => Except.error "fuel exhausted"
  | Nat.succ fuel, cs, acc =>
    match skipWs cs with
    | '"' :: r =>
      match readStrBody r [] with
      | none => Except.error "unterminated string"
      | some (chars, r₂) =>
        match skipWs r₂ with
        | ':' :: r₃ =>
          match readJsonVal fuel r₃ with
          | Except.error e => Except.error e
          | Except.ok (j, r₄) =>
            match skipWs r₄ with
            | ',' :: r₅ => readJsonFields fuel r₅ ((String.mk chars, j) :: acc)
            | '}' :: r₅ => Except.ok (Json.obj (acc.reverse ++ [(String.mk chars, j)]), r₅)
            | _ => Except.error "expecting , or \x7d delimiter"
        | _ => Except.error "expecting : delimiter"
    | _ => Except.error "expecting property name"

end

/-- Model of `json.loads` on the subset described at `Json`: decode a
full string, failing on trailing data (Python's "Extra data"). -/
def jsonLoads (s : String) : Except String Json :=
  match readJsonVal (s.length + 1) s.data with
  | Except.error e => Except.error e
  | Except.ok (j, rest) =>
    if (skipWs rest).isEmpty then Except.ok j
    else Except.error "extra data"

/-- A calendar date, the model of `datetime.date`/`datetime.datetime`
restricted to the date part (the embedded code only uses dates). -/
structure Date where
  year : Nat
  month : Nat
  day : Nat
deriving DecidableEq

/-- Gregorian leap year, as in Python's `calendar`/`datetime`. -/
def isLeapYear (y : Nat) : Bool :=
  (y % 4 = 0 ∧ y % 100 ≠ 0) ∨ y % 400 = 0

/-- Number of days of month `m` of year `y`. -/
def daysInMonth (y m : Nat) : Nat :=
  if m = 2 then (if isLeapYear y then 29 else 28)
  else if m = 4 ∨ m = 6 ∨ m = 9 ∨ m = 11 then 30
  else 31

/-- First code points of the Unicode decimal-digit (Nd) ranges; every
range holds the digits 0-9 at ten consecutive code points. `\d` in
CPython's `_strptime` patterns (compiled without `re.ASCII`) matches
exactly the Nd characters; the table is the Nd category of Unicode 15,
which current CPython links. -/
def ndRangeBases : List Nat :=
  [0x30, 0x660, 0x6F0, 0x7C0, 0x966, 0x9E6, 0xA66, 0xAE6, 0xB66, 0xBE6,
   0xC66, 0xCE6, 0xD66, 0xDE6, 0xE50, 0xED0, 0xF20, 0x1040, 0x1090, 0x17E0,
   0x1810, 0x1946, 0x19D0, 0x1A80, 0x1A90, 0x1B50, 0x1BB0, 0x1C40, 0x1C50,
   0xA620, 0xA8D0, 0xA900, 0xA9D0, 0xA9F0, 0xAA50, 0xABF0, 0xFF10,
   0x104A0, 0x10D30, 0x11066, 0x110F0, 0x11136, 0x111D0, 0x112F0, 0x11450,
   0x114D0, 0x11650, 0x116C0, 0x11730, 0x118E0, 0x11950, 0x11C50, 0x11D50,
   0x11DA0, 0x11F50, 0x16A60, 0x16AC0, 0x16B50,
   0x1D7CE, 0x1D7D8, 0x1D7E2, 0x1D7EC, 0x1D7F6,
   0x1E140, 0x1E2F0, 0x1E4F0, 0x1E950, 0x1FBF0]

/-- The decimal value of a character under the regex class `\d`
(any Unicode Nd digit, the way CPython's `int()` also reads it), or
`none` when the character is not a decimal digit. -/
def pyDigitVal (c : Char) : Option Nat :=
  match ndRangeBases.find? (fun b => b ≤ c.toNat && c.toNat ≤ b + 9) with
  | some b => some (c.toNat - b)
  | none => none

/-- Reads exactly four decimal digits (the `%Y` pattern of
`_strptime`, `\d\d\d\d`); `\d` admits any Unicode Nd digit, which
`int()` then converts by decimal value. -/
def readYear4 : List Char → Option (Nat × List Char)
  | a :: b :: c :: d :: rest =>
    match pyDigitVal a, pyDigitVal b, pyDigitVal c, pyDigitVal d with
    | some va, some vb, some vc, some vd =>
      some (1000 * va + 100 * vb + 10 * vc + vd, rest)
    | _, _, _, _ => none
  | _ => none

/-- Reads a month as matched by `_strptime`'s `%m` pattern
`1[0-2]|0[1-9]|[1-9]` (the leading zero is optional). -/
def readMonth : List Char → Option (Nat × List Char)
  | c₁ :: c₂ :: rest =>
    if c₁ = '1' ∧ (48 ≤ c₂.toNat ∧ c₂.toNat ≤ 50) then
      some (10 + digitVal c₂, rest)
    else if c₁ = '0' ∧ (49 ≤ c₂.toNat ∧ c₂.toNat ≤ 57) then
      some (digitVal c₂, rest)
    else if 49 ≤ c₁.toNat ∧ c₁.toNat ≤ 57 then
      some (digitVal c₁, c₂ :: rest)
    else none
  | [c₁] =>
    if 49 ≤ c₁.toNat ∧ c₁.toNat ≤ 57 then some (digitVal c₁, []) else none
  | [] => none

/-- Reads a day as matched by `_strptime`'s `%d` pattern
`3[01]|[12]\d|0[1-9]|[1-9]` (the leading zero is optional); in the
`[12]\d` alternative the second character may be any Unicode Nd digit,
the explicit `[...]` ranges are ASCII. -/
def readDay : List Char → Option (Nat × List Char)
  | c₁ :: c₂ :: rest =>
    if c₁ = '3' ∧ (c₂ = '0' ∨ c₂ = '1') then
      some (30 + digitVal c₂, rest)
    else if (c₁ = '1' ∨ c₁ = '2') ∧ (pyDigitVal c₂).isSome then
      some (10 * digitVal c₁ + (pyDigitVal c₂).getD 0, rest)
    else if c₁ = '0' ∧ (49 ≤ c₂.toNat ∧ c₂.toNat ≤ 57) then
      some (digitVal c₂, rest)
    else if 49 ≤ c₁.toNat ∧ c₁.toNat ≤ 57 then
      some (digitVal c₁, c₂ :: rest)
    else none
  | [c₁] =>
    if 49 ≤ c₁.toNat ∧ c₁.toNat ≤ 57 then some (digitVal c₁, []) else none
  | [] => none

/-- Model of `datetime.strptime(s, "%Y-%m-%d")`: the `_strptime`
pattern match (four-digit year, month and day with an optional
leading zero, where the pattern's `\d` positions — all four year
digits and the second digit of a 10-29 day — admit any Unicode Nd
digit), the trailing "unconverted data remains" check, and the
`datetime` constructor's range check (year at least 1, day within
the month). Returns `none` exactly when Python raises `ValueError`. -/
def strptimeYmd (s : String) : Option Date :=
  match readYear4 s.data with
  | none => none
  | some (y, r₁) =>
    match r₁ with
    | '-' :: r₂ =>
      match readMonth r₂ with
      | none => none
      | some (m, r₃) =>
        match r₃ with
        | '-' :: r₄ =>
          match readDay r₄ with
          | none => none
          | some (d, r₅) =>
            if r₅ = [] then
              if 1 ≤ y ∧ d ≤ daysInMonth y m then some (Date.mk y m d)
              else none
            else none
        | _ => none
    | _ => none

/-- Left-pad a numeral to two digits (`%m`/`%d` of `strftime`). -/
def pad2 (n : Nat) : String :=
  if n < 10 then "0" ++ toString n else toString n

/-- Left-pad a numeral to four digits (`%Y` of `strftime`; for years
below 1000 the C library's `%Y` padding is platform-dependent, and the
model fixes the zero-padded reading). -/
def pad4 (n : Nat) : String :=
  if n < 10 then "000" ++ toString n
  else if n < 100 then "00" ++ toString n
  else if n < 1000 then "0" ++ toString n
  else toString n

/-- Model of `date.strftime("%Y-%m-%d")`. -/
def formatDate (d : Date) : String :=
  pad4 d.year ++ "-" ++ pad2 d.month ++ "-" ++ pad2 d.day

/-- Model of `d - relativedelta(months=3)`: dateutil moves the month
back three (borrowing from the year when needed), clamps the day to
the length of the resulting month, and rebuilds the date via
`date.replace`, whose `datetime.MINYEAR` range check makes a resulting
year 0 raise `ValueError("year 0 is out of range")` — reachable for
dates in year 1 with month ≤ 3. -/
def monthsBack3 (d : Date) : Except PyExc Date :=
  let y₂ := if 3 < d.month then d.year else d.year - 1
  let m₂ := if 3 < d.month then d.month - 3 else d.month + 9
  if y₂ = 0 then
    Except.error (PyExc.valueError "year 0 is out of range")
  else
    Except.ok (Date.mk y₂ m₂ (min d.day (daysInMonth y₂ m₂)))

/-- Insertion into a Python `dict` modelled as an association list in
insertion order: an existing key is overwritten in place, a new key is
appended. -/
def dictInsert {α : Type} (d : List (String × α)) (k : String) (v : α) :
    List (String × α) :=
  match d with
  | [] => [(k, v)]
  | (k₀, v₀) :: rest =>
    if k₀ = k then (k, v) :: rest else (k₀, v₀) :: dictInsert rest k v

/-- The `dict` built by a comprehension `{t: v for t in ks}` with a
constant value. -/
def dictOfKeys {α : Type} (ks : List String) (v : α) : List (String × α) :=
  ks.foldl (fun d k => dictInsert d k v) []

/-- Per-ticker position state (src/main.py:266-273), zero-initialised
at construction. -/
structure PositionState where
  long : Int
  short : Int
  long_cost_basis : ℚ
  short_cost_basis : ℚ
  short_margin_used : ℚ
deriving DecidableEq

/-- Per-ticker realised gains (src/main.py:276-281). -/
structure RealizedGain where
  long : ℚ
  short : ℚ
deriving DecidableEq

/-- The all-zero position entry. -/
def zeroPosition : PositionState := PositionState.mk 0 0 0 0 0

/-- The all-zero realised-gains entry. -/
def zeroGain : RealizedGain := RealizedGain.mk 0 0

/-- The portfolio ledger (src/main.py:262-283). -/
structure Portfolio where
  cash : ℚ
  margin_requirement : ℚ
  margin_used : ℚ
  positions : List (String × PositionState)
  realized_gains : List (String × RealizedGain)
deriving DecidableEq

/-- Embedding of the portfolio initialisation of `run_hedge_fund_gui`
(src/main.py:261-283): the given cash and margin requirement are
stored unchecked, `margin_used` starts at zero, and the two per-ticker
tables are zero-initialised dict comprehensions over the requested
tickers. -/
def mkPortfolio (tickers : List String) (initial_cash margin_requirement : ℚ) :
    Portfolio :=
  Portfolio.mk initial_cash margin_requirement 0
    (dictOfKeys tickers zeroPosition)
    (dictOfKeys tickers zeroGain)

/-- langgraph's `END` sentinel (the name it uses internally). -/
def ENDKEY : String := "__end__"

/-- A langgraph `StateGraph` under construction, modelled as the node
names added so far, the edges added so far (in order), and the entry
point. The node functions carry no information used by the claims and
are omitted. -/
structure Graph where
  nodes : List String
  edges : List (String × String)
  entry : Option String
deriving DecidableEq

/-- `StateGraph.add_node`: fails (langgraph raises `ValueError`) when
the name is already present, otherwise appends the node. -/
def addNode (g : Graph) (n : String) : Except PyExc Graph :=
  if n ∈ g.nodes then
    Except.error (PyExc.valueError ("Node " ++ n ++ " already present."))
  else Except.ok (Graph.mk (g.nodes ++ [n]) g.edges g.entry)

/-- `StateGraph.add_edge`: appends an edge. -/
def addEdge (g : Graph) (a b : String) : Graph :=
  Graph.mk g.nodes (g.edges ++ [(a, b)]) g.entry

/-- `StateGraph.set_entry_point`. -/
def setEntryPoint (g : Graph) (n : String) : Graph :=
  Graph.mk g.nodes g.edges (some n)

/-- The analyst capability registry: the key → node-name part of
`get_analyst_nodes()`. The node functions are irrelevant to the
claims and are omitted; the registry itself is a parameter of the
embedding because `src/utils/analysts.py` is not part of the
provided sources. -/
def Registry : Type := List (String × String)

/-- `analyst_nodes[analyst_key]`: Python dict indexing, raising
`KeyError` on an absent key. -/
def getAnalystNode (reg : Registry) (k : String) : Except PyExc String :=
  match List.lookup k reg with
  | some n => Except.ok n
  | none => Except.error (PyExc.keyError k)

/-- The first loop of `create_workflow` (src/main.py:136-139): for
each selected key, look the analyst up, add its node and the edge
from `start_node` to it. -/
def foldAnalysts (reg : Registry) : Graph → List String → Except PyExc Graph
  | g, [] => Except.ok g
  | g, k :: ks =>
    match getAnalystNode reg k with
    | Except.error e => Except.error e
    | Except.ok n =>
      match addNode g n with
      | Except.error e => Except.error e
      | Except.ok g₂ => foldAnalysts reg (addEdge g₂ "start_node" n) ks

/-- The second loop of `create_workflow` (src/main.py:146-148): for
each selected key, add the edge from its node to the risk stage. -/
def foldConnect (reg : Registry) : Graph → List String → Except PyExc Graph
  | g, [] => Except.ok g
  | g, k :: ks =>
    match getAnalystNode reg k with
    | Except.error e => Except.error e
    | Except.ok n => foldConnect reg (addEdge g n "risk_management_agent") ks

/-- Embedding of `create_workflow` (src/main.py:124-154). `none`
stands for the Python default `selected_analysts=None`, which selects
every registered analyst. -/
def create_workflow (reg : Registry) (selected : Option (List String)) :
    Except PyExc Graph :=
  let sel := match selected with
    | none => reg.map Prod.fst
    | some l => l
  match addNode (Graph.mk [] [] none) "start_node" with
  | Except.error e => Except.error e
  | Except.ok g₀ =>
    match foldAnalysts reg g₀ sel with
    | Except.error e => Except.error e
    | Except.ok g₁ =>
      match addNode g₁ "risk_management_agent" with
      | Except.error e => Except.error e
      | Except.ok g₂ =>
        match addNode g₂ "portfolio_manager" with
        | Except.error e => Except.error e
        | Except.ok g₃ =>
          match foldConnect reg g₃ sel with
          | Except.error e => Except.error e
          | Except.ok g₄ =>
            Except.ok (setEntryPoint
              (addEdge (addEdge g₄ "risk_management_agent" "portfolio_manager")
                "portfolio_manager" ENDKEY)
              "start_node")

/-- The immutable run input captured at the start stage and read by
`agent.invoke` (src/main.py:88-108). -/
structure RunInput where
  tickers : List String
  start_date : String
  end_date : String
  portfolio : Portfolio
  selected : List String

/-- The final pipeline state as far as `run_hedge_fund` reads it: the
content of the last message (the terminal serialized decision payload)
and the accumulated analyst signals, of an abstract type `σ`. -/
structure FinalState (σ : Type) where
  content : PyVal
  analyst_signals : σ

/-- The value `run_hedge_fund` returns on success
(src/main.py:110-113). -/
structure RunResult (σ : Type) where
  decisions : Option Json
  analyst_signals : σ

/-- Embedding of `run_hedge_fund` (src/main.py:65-116). The compiled
application (`workflow.compile()`, whose validation may fail) and the
graph execution (`agent.invoke`, the fan-out/risk/portfolio stages)
are external collaborators passed as `compileApp` and `invoke`; the
`progress.start()` / `progress.stop()` calls are pure side effects and
are omitted. An empty `selected` list is falsy in Python, so the
workflow is then built with the default (all analysts). -/
def runHedgeFund {σ : Type} (reg : Registry)
    (compileApp : Graph → Except PyExc Unit)
    (invoke : RunInput → Except PyExc (FinalState σ))
    (decode : String → Except String Json)
    (tickers : List String) (start_date end_date : String)
    (portfolio : Portfolio) (selected : List String) :
    Except PyExc (RunResult σ) :=
  match (if selected.isEmpty then create_workflow reg none
         else create_workflow reg (some selected)) with
  | Except.error e => Except.error e
  | Except.ok wf =>
    match compileApp wf with
    | Except.error e => Except.error e
    | Except.ok _ =>
      match invoke (RunInput.mk tickers start_date end_date portfolio selected) with
      | Except.error e => Except.error e
      | Except.ok st =>
        Except.ok (RunResult.mk
          (parse_hedge_fund_response decode st.content) st.analyst_signals)

/-- The fixed minimal fallback analyst set of `run_hedge_fund_gui`
(src/main.py:243). -/
def defaultAnalysts : List String :=
  ["warren_buffett", "peter_lynch", "technical_analyst"]

/-- Modelled from the spec: `src/utils/analysts.py` (the
`get_analyst_nodes` registry and `ANALYST_ORDER`) is not among the
provided sources. The spec describes it as a pure table from a stable
string key to a capability; this sample registry, used for concrete
witnesses, carries the three analyst keys that `src/main.py` names
explicitly, each with a distinct node name. -/
def sampleRegistry : Registry :=
  [("warren_buffett", "warren_buffett_agent"),
   ("peter_lynch", "peter_lynch_agent"),
   ("technical_analyst", "technical_analyst_agent")]

/-- One date-format check of `run_hedge_fund_gui`
(src/main.py:207-218): an empty string is skipped, otherwise a failed
`strptime` is converted into a `ValueError` with the given message. -/
def checkDateFormat (s msg : String) : Except PyExc Unit :=
  if s = "" then Except.ok ()
  else
    match strptimeYmd s with
    | some _ => Except.ok ()
    | none => Except.error (PyExc.valueError msg)

/-- The date validation and default resolution of `run_hedge_fund_gui`
(src/main.py:207-226): both supplied dates are format-checked, an
empty end date defaults to today, and an empty start date defaults to
three months before the resolved end date. The re-parse and the
relativedelta subtraction happen outside any local `try`, so their
`ValueError`s (unparseable data, or the year-0 range failure of
`monthsBack3`) propagate to the enclosing handler. -/
def resolveDates (today : Date) (start_date end_date : String) :
    Except PyExc (String × String) :=
  match checkDateFormat start_date "开始日期必须为YYYY-MM-DD格式" with
  | Except.error e => Except.error e
  | Except.ok _ =>
    match checkDateFormat end_date "结束日期必须为YYYY-MM-DD格式" with
    | Except.error e => Except.error e
    | Except.ok _ =>
      let ed := if end_date = "" then formatDate today else end_date
      if start_date = "" then
        match strptimeYmd ed with
        | some d =>
          match monthsBack3 d with
          | Except.ok d₂ => Except.ok (formatDate d₂, ed)
          | Except.error e => Except.error e
        | none =>
          Except.error (PyExc.valueError
            ("time data " ++ ed ++ " does not match format %Y-%m-%d"))
      else Except.ok (start_date, ed)

/-- The inputs of `run_hedge_fund_gui` that the claims depend on
(`show_reasoning`, model name/provider and `show_agent_graph` only
feed prints, the report image and the opaque capabilities). `none`
models the Python default `selected_analysts=None`. -/
structure GuiArgs where
  tickers : List String
  start_date : String
  end_date : String
  initial_cash : ℚ
  margin_requirement : ℚ
  selected_analysts : Option (List String)

/-- The external collaborators `run_hedge_fund_gui` runs against: the
analyst registry, the full analyst key list (`ANALYST_ORDER` values),
today's date (`datetime.now()`), the langgraph compiler, the graph
executor and the JSON decoder. -/
structure GuiEnv (σ : Type) where
  reg : Registry
  allAnalysts : List String
  today : Date
  compileApp : Graph → Except PyExc Unit
  invoke : RunInput → Except PyExc (FinalState σ)
  decode : String → Except String Json

/-- The analyst-set resolution of `run_hedge_fund_gui`
(src/main.py:184-191): `if not selected_analysts` replaces both
`None` and an empty list by the full `ANALYST_ORDER` set. (The
`ImportError` branch that would fall back to the three-key default
cannot fire once the module is loaded and is not modelled.) -/
def resolveSelected {σ : Type} (env : GuiEnv σ) (a : GuiArgs) : List String :=
  match a.selected_analysts with
  | none => env.allAnalysts
  | some l => if l.isEmpty then env.allAnalysts else l

/-- `create_workflow(...)` followed by `workflow.compile()`, the body
of the guarded build in `run_hedge_fund_gui` (src/main.py:236-237 and
244-245). -/
def buildApp {σ : Type} (env : GuiEnv σ) (sel : List String) :
    Except PyExc Unit :=
  match create_workflow env.reg (some sel) with
  | Except.error e => Except.error e
  | Except.ok wf => env.compileApp wf

/-- Observable steps of one façade call, used to state in which order
(and how often) builds and the pipeline run happen. -/
inductive Event where
  | buildAttempt (keys : List String) : Event
  | runCall : Event
deriving DecidableEq

/-- The key sets of the build attempts in a trace. -/
def buildAttemptsOf (tr : List Event) : List (List String) :=
  tr.filterMap (fun e =>
    match e with
    | Event.buildAttempt l => some l
    | Event.runCall => none)

/-- Embedding of the body of `run_hedge_fund_gui` (src/main.py:176-305)
together with the trace of its build attempts and its hand-off to
`run_hedge_fund`: analyst resolution, date validation/defaulting, the
guarded workflow build with its single fallback to `defaultAnalysts`
(src/main.py:235-246), portfolio construction, and the call to
`run_hedge_fund`. Any `Except.error` is the exception that reaches
the enclosing `except Exception` handler. -/
def runHedgeFundGuiCore {σ : Type} (env : GuiEnv σ) (a : GuiArgs) :
    Except PyExc (RunResult σ) × List Event :=
  match resolveDates env.today a.start_date a.end_date with
  | Except.error e => (Except.error e, [])
  | Except.ok sded =>
    match buildApp env (resolveSelected env a) with
    | Except.ok _ =>
      (runHedgeFund env.reg env.compileApp env.invoke env.decode
         a.tickers sded.1 sded.2
         (mkPortfolio a.tickers a.initial_cash a.margin_requirement)
         (resolveSelected env a),
       [Event.buildAttempt (resolveSelected env a), Event.runCall])
    | Except.error _ =>
      match buildApp env defaultAnalysts with
      | Except.ok _ =>
        (runHedgeFund env.reg env.compileApp env.invoke env.decode
           a.tickers sded.1 sded.2
           (mkPortfolio a.tickers a.initial_cash a.margin_requirement)
           defaultAnalysts,
         [Event.buildAttempt (resolveSelected env a),
          Event.buildAttempt defaultAnalysts, Event.runCall])
      | Except.error e =>
        (Except.error e,
         [Event.buildAttempt (resolveSelected env a),
          Event.buildAttempt defaultAnalysts])

/-- What `run_hedge_fund_gui` hands back to its caller: either the
result dict of `run_hedge_fund` or the error envelope
`{"error": ..., "traceback": ...}` built by its
`except Exception` handler (src/main.py:307-317). -/
inductive GuiOutcome (σ : Type) where
  | result (r : RunResult σ) : GuiOutcome σ
  | errorEnvelope (error traceback : String) : GuiOutcome σ

/-- The `except Exception` handler of `run_hedge_fund_gui`
(src/main.py:307-317): a raised exception becomes the error
envelope. -/
def outcomeOfRun {σ : Type} (r : Except PyExc (RunResult σ)) : GuiOutcome σ :=
  match r with
  | Except.ok x => GuiOutcome.result x
  | Except.error e => GuiOutcome.errorEnvelope (excMessage e) (tracebackOf e)

/-- Embedding of `run_hedge_fund_gui` (src/main.py:157-317). -/
def runHedgeFundGui {σ : Type} (env : GuiEnv σ) (a : GuiArgs) :
    GuiOutcome σ × List Event :=
  (outcomeOfRun (runHedgeFundGuiCore env a).1, (runHedgeFundGuiCore env a).2)

/-- Embedding of `run_from_gui` (src/main.py:508-517): it calls
`run_hedge_fund_gui` inside a further `try/except` that builds the
same envelope; the inner function never raises in the model, so the
wrapper returns its value unchanged. -/
def runFromGui {σ : Type} (env : GuiEnv σ) (a : GuiArgs) :
    GuiOutcome σ × List Event :=
  runHedgeFundGui env a

/-- The error taxonomy of the design (§7 of the specification). -/
inductive PipelineError where
  | configError (msg : String) : PipelineError
  | unknownCapabilityError (key : String) : PipelineError
  | validationError (msg : String) : PipelineError
  | executionError (msg : String) : PipelineError
  | parseError (msg : String) : PipelineError

/-- How each failure mode of the taxonomy surfaces as a Python
exception in the embedded code (a parse failure never becomes an
exception, but a raised stand-in is still representable). -/
def pipelineErrorToExc : PipelineError → PyExc
  | PipelineError.configError msg => PyExc.valueError msg
  | PipelineError.unknownCapabilityError key => PyExc.keyError key
  | PipelineError.validationError msg => PyExc.valueError msg
  | PipelineError.executionError msg => PyExc.exc msg
  | PipelineError.parseError msg => PyExc.exc msg

theorem mem_keys_dictInsert {α : Type} {d : List (String × α)} {k x : String}
    {v : α} :
    x ∈ (dictInsert d k v).map Prod.fst ↔ x = k ∨ x ∈ d.map Prod.fst := by
  induction d with
  | nil => simp [dictInsert]
  | cons p rest ih =>
    obtain ⟨k₀, v₀⟩ := p
    by_cases h : k₀ = k
    · simp only [dictInsert, if_pos h, List.map_cons, List.mem_cons]
      subst h
      tauto
    · simp only [dictInsert, if_neg h, List.map_cons, List.mem_cons, ih]
      tauto

theorem keys_toFinset_dictInsert {α : Type} {d : List (String × α)}
    {k : String} {v : α} :
    ((dictInsert d k v).map Prod.fst).toFinset =
      insert k (d.map Prod.fst).toFinset := by
  ext x
  simp only [List.mem_toFinset, Finset.mem_insert]
  exact mem_keys_dictInsert

theorem nodup_keys_dictInsert {α : Type} {d : List (String × α)} {k : String}
    {v : α} (h : (d.map Prod.fst).Nodup) :
    ((dictInsert d k v).map Prod.fst).Nodup := by
  induction d with
  | nil => simp [dictInsert]
  | cons p rest ih =>
    obtain ⟨k₀, v₀⟩ := p
    simp only [List.map_cons, List.nodup_cons] at h
    by_cases hk : k₀ = k
    · subst hk
      simpa [dictInsert] using h
    · simp only [dictInsert, if_neg hk, List.map_cons, List.nodup_cons]
      refine ⟨fun hc => ?_, ih h.2⟩
      rcases mem_keys_dictInsert.mp hc with h₁ | h₁
      · exact hk h₁
      · exact h.1 h₁

theorem snd_mem_dictInsert {α : Type} {d : List (String × α)} {k : String}
    {v : α} : ∀ p ∈ dictInsert d k v, p.2 = v ∨ p ∈ d := by
  induction d with
  | nil =>
    intro p hp
    simp only [dictInsert, List.mem_singleton] at hp
    left
    rw [hp]
  | cons q rest ih =>
    obtain ⟨k₀, v₀⟩ := q
    intro p hp
    by_cases hk : k₀ = k
    · simp only [dictInsert, if_pos hk, List.mem_cons] at hp
      rcases hp with hp | hp
      · left; rw [hp]
      · right; exact List.mem_cons_of_mem _ hp
    · simp only [dictInsert, if_neg hk, List.mem_cons] at hp
      rcases hp with hp | hp
      · right; rw [hp]; exact List.mem_cons_self _ _
      · rcases ih p hp with h | h
        · left; exact h
        · right; exact List.mem_cons_of_mem _ h

theorem keys_toFinset_dictOfKeys_aux {α : Type} (ks : List String) (v : α) :
    ∀ d : List (String × α),
      ((ks.foldl (fun d k => dictInsert d k v) d).map Prod.fst).toFinset =
        (d.map Prod.fst).toFinset ∪ ks.toFinset := by
  induction ks with
  | nil => intro d; simp
  | cons k rest ih =>
    intro d
    simp only [List.foldl_cons, ih (dictInsert d k v),
      keys_toFinset_dictInsert, List.toFinset_cons]
    ext x
    simp only [Finset.mem_union, Finset.mem_insert]
    tauto

theorem keys_toFinset_dictOfKeys {α : Type} (ks : List String) (v : α) :
    ((dictOfKeys ks v).map Prod.fst).toFinset = ks.toFinset := by
  simpa [dictOfKeys] using keys_toFinset_dictOfKeys_aux ks v []

theorem nodup_keys_dictOfKeys_aux {α : Type} (ks : List String) (v : α) :
    ∀ d : List (String × α), (d.map Prod.fst).Nodup →
      ((ks.foldl (fun d k => dictInsert d k v) d).map Prod.fst).Nodup := by
  induction ks with
  | nil => intro d h; simpa using h
  | cons k rest ih =>
    intro d h
    simpa [List.foldl_cons] using ih (dictInsert d k v) (nodup_keys_dictInsert h)

theorem nodup_keys_dictOfKeys {α : Type} (ks : List String) (v : α) :
    ((dictOfKeys ks v).map Prod.fst).Nodup := by
  simpa [dictOfKeys] using nodup_keys_dictOfKeys_aux ks v [] (by simp)

theorem snd_mem_dictOfKeys_aux {α : Type} (ks : List String) (v : α) :
    ∀ d : List (String × α), (∀ p ∈ d, p.2 = v) →
      ∀ p ∈ ks.foldl (fun d k => dictInsert d k v) d, p.2 = v := by
  induction ks with
  | nil => intro d h; simpa using h
  | cons k rest ih =>
    intro d h
    simp only [List.foldl_cons]
    refine ih (dictInsert d k v) ?_
    intro p hp
    rcases snd_mem_dictInsert p hp with h₁ | h₁
    · exact h₁
    · exact h p h₁

theorem snd_mem_dictOfKeys {α : Type} (ks : List String) (v : α) :
    ∀ p ∈ dictOfKeys ks v, p.2 = v := by
  simpa [dictOfKeys] using snd_mem_dictOfKeys_aux ks v [] (by simp)

theorem foldAnalysts_closed {reg : Registry} {nm : String → String} :
    ∀ (sel : List String) (g : Graph),
      (∀ k ∈ sel, List.lookup k reg = some (nm k)) →
      (∀ k ∈ sel, nm k ∉ g.nodes) →
      (sel.map nm).Nodup →
      foldAnalysts reg g sel =
        Except.ok (Graph.mk (g.nodes ++ sel.map nm)
          (g.edges ++ sel.map (fun k => ("start_node", nm k))) g.entry) := by
  intro sel
  induction sel with
  | nil => intro g _ _ _; simp [foldAnalysts]
  | cons k ks ih =>
    intro g hlk hfresh hnd
    have hk : List.lookup k reg = some (nm k) := hlk k (List.mem_cons_self _ _)
    have hkg : nm k ∉ g.nodes := hfresh k (List.mem_cons_self _ _)
    simp only [List.map_cons, List.nodup_cons] at hnd
    have hfresh₂ : ∀ k₂ ∈ ks, nm k₂ ∉
        (addEdge (Graph.mk (g.nodes ++ [nm k]) g.edges g.entry)
          "start_node" (nm k)).nodes := by
      intro k₂ hk₂ hmem
      simp only [addEdge, List.mem_append, List.mem_singleton] at hmem
      rcases hmem with h | h
      · exact hfresh k₂ (List.mem_cons_of_mem _ hk₂) h
      · exact hnd.1 (h ▸ List.mem_map_of_mem nm hk₂)
    have h₂ := ih (addEdge (Graph.mk (g.nodes ++ [nm k]) g.edges g.entry)
        "start_node" (nm k))
      (fun k₂ hk₂ => hlk k₂ (List.mem_cons_of_mem _ hk₂)) hfresh₂ hnd.2
    simp only [foldAnalysts, getAnalystNode, hk, addNode, if_neg hkg, h₂]
    simp [addEdge, List.append_assoc]

theorem foldConnect_closed {reg : Registry} {nm : String → String} :
    ∀ (sel : List String) (g : Graph),
      (∀ k ∈ sel, List.lookup k reg = some (nm k)) →
      foldConnect reg g sel =
        Except.ok (Graph.mk g.nodes
          (g.edges ++ sel.map (fun k => (nm k, "risk_management_agent")))
          g.entry) := by
  intro sel
  induction sel with
  | nil => intro g _; simp [foldConnect]
  | cons k ks ih =>
    intro g hlk
    have hk : List.lookup k reg = some (nm k) := hlk k (List.mem_cons_self _ _)
    have h₂ := ih (addEdge g (nm k) "risk_management_agent")
      (fun k₂ hk₂ => hlk k₂ (List.mem_cons_of_mem _ hk₂))
    simp only [foldConnect, getAnalystNode, hk, h₂]
    simp [addEdge, List.append_assoc]

/-- The node names `create_workflow` adds besides the analyst nodes. -/
def fixedNodeNames : List String :=
  ["start_node", "risk_management_agent", "portfolio_manager"]

/-- Closed form of `create_workflow` on an explicitly selected key
list whose keys all resolve, whose node names are mutually distinct
and avoid the three fixed node names. -/
theorem create_workflow_closed {reg : Registry} {nm : String → String}
    {sel : List String}
    (hlk : ∀ k ∈ sel, List.lookup k reg = some (nm k))
    (hnd : (sel.map nm).Nodup)
    (hres : ∀ k ∈ sel, nm k ∉ fixedNodeNames) :
    create_workflow reg (some sel) =
      Except.ok (Graph.mk
        ("start_node" :: (sel.map nm ++ ["risk_management_agent", "portfolio_manager"]))
        ((sel.map (fun k => ("start_node", nm k))) ++
          (sel.map (fun k => (nm k, "risk_management_agent")) ++
            [("risk_management_agent", "portfolio_manager"),
             ("portfolio_manager", ENDKEY)]))
        (some "start_node")) := by
  have hstart : ∀ k ∈ sel, nm k ≠ "start_node" := by
    intro k hk h
    exact hres k hk (by rw [h]; simp [fixedNodeNames])
  have hrisk : ∀ k ∈ sel, nm k ≠ "risk_management_agent" := by
    intro k hk h
    exact hres k hk (by rw [h]; simp [fixedNodeNames])
  have hpm : ∀ k ∈ sel, nm k ≠ "portfolio_manager" := by
    intro k hk h
    exact hres k hk (by rw [h]; simp [fixedNodeNames])
  have hfresh₀ : ∀ k ∈ sel,
      nm k ∉ (Graph.mk ["start_node"] ([] : List (String × String)) none).nodes :=
    fun k hk h => hstart k hk (List.mem_singleton.mp h)
  have e₀ : addNode (Graph.mk [] [] none) "start_node" =
      Except.ok (Graph.mk ["start_node"] [] none) := rfl
  have e₁ := foldAnalysts_closed sel (Graph.mk ["start_node"] [] none)
    hlk hfresh₀ hnd
  simp only [List.cons_append, List.nil_append] at e₁
  have hmem₂ : "risk_management_agent" ∉ "start_node" :: sel.map nm := by
    intro h
    rcases List.mem_cons.mp h with h | h
    · exact absurd h (by decide)
    · rcases List.mem_map.mp h with ⟨k, hk, hkeq⟩
      exact hrisk k hk hkeq
  have e₂ : addNode (Graph.mk ("start_node" :: sel.map nm)
      (sel.map (fun k => ("start_node", nm k))) none) "risk_management_agent" =
      Except.ok (Graph.mk (("start_node" :: sel.map nm) ++ ["risk_management_agent"])
        (sel.map (fun k => ("start_node", nm k))) none) := by
    simp [addNode, hmem₂]
  have hmem₃ : "portfolio_manager" ∉
      ("start_node" :: sel.map nm) ++ ["risk_management_agent"] := by
    intro h
    rcases List.mem_append.mp h with h | h
    · rcases List.mem_cons.mp h with h | h
      · exact absurd h (by decide)
      · rcases List.mem_map.mp h with ⟨k, hk, hkeq⟩
        exact hpm k hk hkeq
    · exact absurd h (by decide)
  have e₃ : addNode (Graph.mk (("start_node" :: sel.map nm) ++ ["risk_management_agent"])
      (sel.map (fun k => ("start_node", nm k))) none) "portfolio_manager" =
      Except.ok (Graph.mk
        ((("start_node" :: sel.map nm) ++ ["risk_management_agent"]) ++ ["portfolio_manager"])
        (sel.map (fun k => ("start_node", nm k))) none) := by
    simp [addNode, hmem₃]
    exact hpm
  have e₄ := foldConnect_closed sel
    (Graph.mk ((("start_node" :: sel.map nm) ++ ["risk_management_agent"]) ++ ["portfolio_manager"])
      (sel.map (fun k => ("start_node", nm k))) none) hlk
  simp only [create_workflow, e₀, e₁, e₂, e₃, e₄]
  simp [addEdge, setEntryPoint, List.append_assoc]

theorem parse_response_ok {decode : String → Except String Json} {s : String}
    {v : Json} (h : decode s = Except.ok v) :
    parse_hedge_fund_response decode (PyVal.pyStr s) = some v := by
  simp [parse_hedge_fund_response, h]

theorem parse_response_error {decode : String → Except String Json} {s : String}
    {msg : String} (h : decode s = Except.error msg) :
    parse_hedge_fund_response decode (PyVal.pyStr s) = none := by
  simp [parse_hedge_fund_response, h]

theorem parse_response_nonstr {decode : String → Except String Json} {d : String} :
    parse_hedge_fund_response decode (PyVal.pyNonStr d) = none := rfl

theorem runHedgeFund_eq_of_invoke {σ : Type} {reg : Registry}
    {compileApp : Graph → Except PyExc Unit}
    {invoke : RunInput → Except PyExc (FinalState σ)}
    {decode : String → Except String Json}
    {tickers : List String} {sd ed : String} {pf : Portfolio}
    {selected : List String} {wf : Graph} {st : FinalState σ}
    (hb : (if selected.isEmpty then create_workflow reg none
           else create_workflow reg (some selected)) = Except.ok wf)
    (hc : compileApp wf = Except.ok ())
    (hi : invoke (RunInput.mk tickers sd ed pf selected) = Except.ok st) :
    runHedgeFund reg compileApp invoke decode tickers sd ed pf selected =
      Except.ok (RunResult.mk (parse_hedge_fund_response decode st.content)
        st.analyst_signals) := by
  simp only [runHedgeFund, hb, hc, hi]

theorem guiCore_dates_error {σ : Type} {env : GuiEnv σ} {a : GuiArgs} {e : PyExc}
    (hd : resolveDates env.today a.start_date a.end_date = Except.error e) :
    runHedgeFundGuiCore env a = (Except.error e, []) := by
  simp only [runHedgeFundGuiCore, hd]

theorem guiCore_build_ok {σ : Type} {env : GuiEnv σ} {a : GuiArgs}
    {sd ed : String}
    (hd : resolveDates env.today a.start_date a.end_date = Except.ok (sd, ed))
    (hb : buildApp env (resolveSelected env a) = Except.ok ()) :
    runHedgeFundGuiCore env a =
      (runHedgeFund env.reg env.compileApp env.invoke env.decode
         a.tickers sd ed
         (mkPortfolio a.tickers a.initial_cash a.margin_requirement)
         (resolveSelected env a),
       [Event.buildAttempt (resolveSelected env a), Event.runCall]) := by
  simp only [runHedgeFundGuiCore, hd, hb]

theorem guiCore_fallback_ok {σ : Type} {env : GuiEnv σ} {a : GuiArgs}
    {sd ed : String} {e₁ : PyExc}
    (hd : resolveDates env.today a.start_date a.end_date = Except.ok (sd, ed))
    (h1 : buildApp env (resolveSelected env a) = Except.error e₁)
    (h2 : buildApp env defaultAnalysts = Except.ok ()) :
    runHedgeFundGuiCore env a =
      (runHedgeFund env.reg env.compileApp env.invoke env.decode
         a.tickers sd ed
         (mkPortfolio a.tickers a.initial_cash a.margin_requirement)
         defaultAnalysts,
       [Event.buildAttempt (resolveSelected env a),
        Event.buildAttempt defaultAnalysts, Event.runCall]) := by
  simp only [runHedgeFundGuiCore, hd, h1, h2]

theorem guiCore_fallback_error {σ : Type} {env : GuiEnv σ} {a : GuiArgs}
    {sd ed : String} {e₁ e₂ : PyExc}
    (hd : resolveDates env.today a.start_date a.end_date = Except.ok (sd, ed))
    (h1 : buildApp env (resolveSelected env a) = Except.error e₁)
    (h2 : buildApp env defaultAnalysts = Except.error e₂) :
    runHedgeFundGuiCore env a =
      (Except.error e₂,
       [Event.buildAttempt (resolveSelected env a),
        Event.buildAttempt defaultAnalysts]) := by
  simp only [runHedgeFundGuiCore, hd, h1, h2]

/-- C1: whenever the terminal-stage payload is either not a string or
a string the JSON decoder rejects, `parse_hedge_fund_response` returns
`none` without letting the failure escape, and `run_hedge_fund` still
returns normally with `decisions = none` and the analyst signals the
earlier stages produced — not an exception. -/
theorem claim1_parse_failure_keeps_signals {σ : Type} {reg : Registry}
    {compileApp : Graph → Except PyExc Unit}
    {invoke : RunInput → Except PyExc (FinalState σ)}
    {decode : String → Except String Json}
    {tickers : List String} {sd ed : String} {pf : Portfolio}
    {selected : List String} {wf : Graph} {st : FinalState σ}
    (hb : (if selected.isEmpty then create_workflow reg none
           else create_workflow reg (some selected)) = Except.ok wf)
    (hc : compileApp wf = Except.ok ())
    (hi : invoke (RunInput.mk tickers sd ed pf selected) = Except.ok st)
    (hbad : (∃ d, st.content = PyVal.pyNonStr d) ∨
            (∃ s msg, st.content = PyVal.pyStr s ∧ decode s = Except.error msg)) :
    parse_hedge_fund_response decode st.content = none ∧
    runHedgeFund reg compileApp invoke decode tickers sd ed pf selected =
      Except.ok (RunResult.mk none st.analyst_signals) := by
  have hparse : parse_hedge_fund_response decode st.content = none := by
    rcases hbad with ⟨d, hd⟩ | ⟨s, msg, hs, hdec⟩
    · rw [hd]
      exact parse_response_nonstr
    · rw [hs]
      exact parse_response_error hdec
  refine ⟨hparse, ?_⟩
  rw [runHedgeFund_eq_of_invoke hb hc hi, hparse]

/-- The workflow graph of the single-analyst witness runs. -/
def wfBuffett : Graph :=
  Graph.mk
    ["start_node", "warren_buffett_agent", "risk_management_agent", "portfolio_manager"]
    [("start_node", "warren_buffett_agent"),
     ("warren_buffett_agent", "risk_management_agent"),
     ("risk_management_agent", "portfolio_manager"),
     ("portfolio_manager", ENDKEY)]
    (some "start_node")

/-- Witness for C1: a run whose terminal payload is the malformed
JSON text "[1," yields `decisions = none` while the analyst-signal
value (here the stand-in `7`) survives unchanged. -/
theorem claim1_witness :
    parse_hedge_fund_response jsonLoads (PyVal.pyStr "[1,") = none ∧
    runHedgeFund sampleRegistry (fun _ => Except.ok ())
      (fun _ => Except.ok (FinalState.mk (PyVal.pyStr "[1,") (7 : Nat)))
      jsonLoads ["AAPL"] "2026-01-01" "2026-06-01"
      (mkPortfolio ["AAPL"] 100000 0) ["warren_buffett"] =
      Except.ok (RunResult.mk none 7) :=
  @claim1_parse_failure_keeps_signals Nat sampleRegistry
    (fun _ => Except.ok ())
    (fun _ => Except.ok (FinalState.mk (PyVal.pyStr "[1,") (7 : Nat)))
    jsonLoads ["AAPL"] "2026-01-01" "2026-06-01"
    (mkPortfolio ["AAPL"] 100000 0) ["warren_buffett"] wfBuffett
    (FinalState.mk (PyVal.pyStr "[1,") (7 : Nat))
    rfl rfl rfl
    (Or.inr ⟨"[1,", "expecting value", rfl, rfl⟩)

/-- C10: the decision payload parser performs no schema validation
beyond JSON decoding — any value the decoder produces, whatever its
shape, is returned unchanged, and then becomes the `decisions` field
of the successful run result as is. -/
theorem claim10_parser_no_schema_validation {σ : Type} {reg : Registry}
    {compileApp : Graph → Except PyExc Unit}
    {invoke : RunInput → Except PyExc (FinalState σ)}
    {decode : String → Except String Json}
    {tickers : List String} {sd ed : String} {pf : Portfolio}
    {selected : List String} {wf : Graph} {st : FinalState σ}
    {s : String} {v : Json}
    (hdec : decode s = Except.ok v)
    (hb : (if selected.isEmpty then create_workflow reg none
           else create_workflow reg (some selected)) = Except.ok wf)
    (hc : compileApp wf = Except.ok ())
    (hi : invoke (RunInput.mk tickers sd ed pf selected) = Except.ok st)
    (hcontent : st.content = PyVal.pyStr s) :
    parse_hedge_fund_response decode (PyVal.pyStr s) = some v ∧
    runHedgeFund reg compileApp invoke decode tickers sd ed pf selected =
      Except.ok (RunResult.mk (some v) st.analyst_signals) := by
  have hparse := parse_response_ok hdec
  refine ⟨hparse, ?_⟩
  rw [runHedgeFund_eq_of_invoke hb hc hi, hcontent, hparse]

/-- Witness for C10: a terminal payload that is the bare JSON number
42 — not a ticker-to-decision map at all — is decoded and handed back
as the run's `decisions` value unchanged. -/
theorem claim10_witness :
    parse_hedge_fund_response jsonLoads (PyVal.pyStr "42") = some (Json.num 42) ∧
    runHedgeFund sampleRegistry (fun _ => Except.ok ())
      (fun _ => Except.ok (FinalState.mk (PyVal.pyStr "42") (7 : Nat)))
      jsonLoads ["AAPL"] "2026-01-01" "2026-06-01"
      (mkPortfolio ["AAPL"] 100000 0) ["warren_buffett"] =
      Except.ok (RunResult.mk (some (Json.num 42)) 7) :=
  @claim10_parser_no_schema_validation Nat sampleRegistry
    (fun _ => Except.ok ())
    (fun _ => Except.ok (FinalState.mk (PyVal.pyStr "42") (7 : Nat)))
    jsonLoads ["AAPL"] "2026-01-01" "2026-06-01"
    (mkPortfolio ["AAPL"] 100000 0) ["warren_buffett"] wfBuffett
    (FinalState.mk (PyVal.pyStr "42") (7 : Nat)) "42" (Json.num 42)
    rfl rfl rfl rfl rfl

/-- C7: portfolio construction stores the given cash, zero used
margin, and per-ticker position/realised-gain tables whose key sets
are exactly the requested ticker set (each entry all-zero); in the
embedding a `Portfolio` is an immutable value and no operation that
alters its key sets exists, so the key sets cannot change after
construction. The second conjunct is the concrete instance
`NewPortfolio(["AAPL","MSFT"], 100000, 0.0)` from the claim. -/
theorem claim7_portfolio_invariants :
    (∀ (tickers : List String) (c m : ℚ),
      (mkPortfolio tickers c m).cash = c ∧
      (mkPortfolio tickers c m).margin_requirement = m ∧
      (mkPortfolio tickers c m).margin_used = 0 ∧
      ((mkPortfolio tickers c m).positions.map Prod.fst).toFinset = tickers.toFinset ∧
      ((mkPortfolio tickers c m).realized_gains.map Prod.fst).toFinset = tickers.toFinset ∧
      ((mkPortfolio tickers c m).positions.map Prod.fst).Nodup ∧
      ((mkPortfolio tickers c m).realized_gains.map Prod.fst).Nodup ∧
      (∀ p ∈ (mkPortfolio tickers c m).positions, p.2 = zeroPosition) ∧
      (∀ p ∈ (mkPortfolio tickers c m).realized_gains, p.2 = zeroGain)) ∧
    mkPortfolio ["AAPL", "MSFT"] 100000 0 =
      Portfolio.mk 100000 0 0
        [("AAPL", zeroPosition), ("MSFT", zeroPosition)]
        [("AAPL", zeroGain), ("MSFT", zeroGain)] := by
  constructor
  · intro tickers c m
    exact ⟨rfl, rfl, rfl,
      keys_toFinset_dictOfKeys tickers zeroPosition,
      keys_toFinset_dictOfKeys tickers zeroGain,
      nodup_keys_dictOfKeys tickers zeroPosition,
      nodup_keys_dictOfKeys tickers zeroGain,
      snd_mem_dictOfKeys tickers zeroPosition,
      snd_mem_dictOfKeys tickers zeroGain⟩
  · rfl

/-- Witness for C7: at the concrete portfolio of the claim, cash is
100000, the key set equals the requested ticker set, and the "AAPL"
entry is present and all-zero. -/
theorem claim7_witness :
    (mkPortfolio ["AAPL", "MSFT"] 100000 0).cash = 100000 ∧
    ("AAPL", zeroPosition) ∈ (mkPortfolio ["AAPL", "MSFT"] 100000 0).positions ∧
    ("AAPL", zeroPosition).2 = zeroPosition :=
  ⟨(claim7_portfolio_invariants.1 ["AAPL", "MSFT"] 100000 0).1,
   by decide,
   (claim7_portfolio_invariants.1 ["AAPL", "MSFT"] 100000 0).2.2.2.2.2.2.2.1
     ("AAPL", zeroPosition) (by decide)⟩

/-- A façade environment whose executor echoes back the portfolio it
was invoked with, used to observe what the façade passes to the
pipeline. -/
def envEchoPortfolio : GuiEnv Portfolio :=
  GuiEnv.mk sampleRegistry (sampleRegistry.map Prod.fst) (Date.mk 2026 10 12)
    (fun _ => Except.ok ())
    (fun inp => Except.ok (FinalState.mk (PyVal.pyNonStr "None") inp.portfolio))
    jsonLoads

/-- The façade call of the C3 scenario: `initial_cash = 0` and
`margin_requirement = 3/2`, both outside the ranges the claim says are
rejected. -/
def argsCashZero : GuiArgs :=
  GuiArgs.mk ["AAPL"] "2026-01-01" "2026-06-01" 0 (3 / 2)
    (some ["warren_buffett"])

/-- Counterexample to C3: with `initialCash = 0` and
`marginRequirement = 1.5` the façade raises no `ValidationError` at
all — the run proceeds, the pipeline is invoked with a portfolio whose
`cash` is `0` and whose `margin_requirement` is `3/2`, and a normal
result is returned. -/
theorem claim3_counterexample :
    (runHedgeFundGui envEchoPortfolio argsCashZero).1 =
      GuiOutcome.result (RunResult.mk none (mkPortfolio ["AAPL"] 0 (3 / 2))) ∧
    (mkPortfolio ["AAPL"] 0 (3 / 2)).cash = 0 ∧
    (mkPortfolio ["AAPL"] 0 (3 / 2)).margin_requirement = 3 / 2 :=
  ⟨rfl, rfl, rfl⟩

/-- C3 amended: portfolio construction never fails — there is no
`ValidationError` and no range check on `initialCash` or
`marginRequirement` anywhere in the embedded code; construction is a
total function that stores the given values (in particular it accepts
`initialCash = 0` and `marginRequirement = 1.5`), and whenever dates
validate and the build succeeds the façade hands exactly this
unvalidated portfolio to the pipeline run. -/
theorem claim3_amended_no_cash_validation :
    (∀ (t : List String) (c m : ℚ),
      mkPortfolio t c m =
        Portfolio.mk c m 0 (dictOfKeys t zeroPosition) (dictOfKeys t zeroGain)) ∧
    (∀ (σ : Type) (env : GuiEnv σ) (a : GuiArgs) (sd ed : String),
      resolveDates env.today a.start_date a.end_date = Except.ok (sd, ed) →
      buildApp env (resolveSelected env a) = Except.ok () →
      runHedgeFundGuiCore env a =
        (runHedgeFund env.reg env.compileApp env.invoke env.decode
           a.tickers sd ed
           (mkPortfolio a.tickers a.initial_cash a.margin_requirement)
           (resolveSelected env a),
         [Event.buildAttempt (resolveSelected env a), Event.runCall])) :=
  ⟨fun _ _ _ => rfl, fun _ _ _ _ _ hd hb => guiCore_build_ok hd hb⟩

/-- Witness for the amended C3: the zero-cash, margin-3/2 façade call
reaches the pipeline with the unvalidated portfolio. -/
theorem claim3_amended_witness :
    mkPortfolio ["AAPL"] 0 (3 / 2) =
      Portfolio.mk 0 (3 / 2) 0 (dictOfKeys ["AAPL"] zeroPosition)
        (dictOfKeys ["AAPL"] zeroGain) ∧
    runHedgeFundGuiCore envEchoPortfolio argsCashZero =
      (runHedgeFund envEchoPortfolio.reg envEchoPortfolio.compileApp
         envEchoPortfolio.invoke envEchoPortfolio.decode
         ["AAPL"] "2026-01-01" "2026-06-01"
         (mkPortfolio ["AAPL"] 0 (3 / 2)) ["warren_buffett"],
       [Event.buildAttempt ["warren_buffett"], Event.runCall]) :=
  ⟨claim3_amended_no_cash_validation.1 ["AAPL"] 0 (3 / 2),
   claim3_amended_no_cash_validation.2 Portfolio envEchoPortfolio argsCashZero
     "2026-01-01" "2026-06-01" rfl rfl⟩

/-- A façade environment whose executor echoes back the analyst key
list the run was started with. -/
def envEchoSelected : GuiEnv (List String) :=
  GuiEnv.mk sampleRegistry (sampleRegistry.map Prod.fst) (Date.mk 2026 10 12)
    (fun _ => Except.ok ())
    (fun inp => Except.ok (FinalState.mk (PyVal.pyNonStr "None") inp.selected))
    jsonLoads

/-- Counterexample to C4: for an explicitly empty selection no
`ConfigError("no analysts selected")` exists anywhere — the graph
builder happily returns a three-node plan with no analyst nodes, and
the façade silently substitutes the full registered analyst set (the
run below completes normally using all three registry keys). -/
theorem claim4_counterexample :
    create_workflow sampleRegistry (some []) =
      Except.ok (Graph.mk
        ["start_node", "risk_management_agent", "portfolio_manager"]
        [("risk_management_agent", "portfolio_manager"),
         ("portfolio_manager", ENDKEY)]
        (some "start_node")) ∧
    (runHedgeFundGui envEchoSelected
        (GuiArgs.mk ["AAPL"] "2026-01-01" "2026-06-01" 100000 0 (some []))).1 =
      GuiOutcome.result (RunResult.mk none
        ["warren_buffett", "peter_lynch", "technical_analyst"]) :=
  ⟨rfl, rfl⟩

/-- C4 amended: an empty resolved analyst selection is not an error:
the façade replaces `None` and the empty list by the full registered
set before building, and `create_workflow` applied to an explicitly
empty list raises nothing and returns the plan containing only the
start, risk and portfolio nodes. -/
theorem claim4_amended_empty_selection_defaults :
    (∀ (σ : Type) (env : GuiEnv σ) (a : GuiArgs),
      a.selected_analysts = some [] → resolveSelected env a = env.allAnalysts) ∧
    (∀ reg : Registry, create_workflow reg (some []) =
      Except.ok (Graph.mk
        ["start_node", "risk_management_agent", "portfolio_manager"]
        [("risk_management_agent", "portfolio_manager"),
         ("portfolio_manager", ENDKEY)]
        (some "start_node"))) := by
  constructor
  · intro σ env a h
    simp [resolveSelected, h]
  · intro reg
    rfl

/-- Witness for the amended C4: the concrete empty-selection call
resolves to the full registered set, and the builder returns the
analyst-free plan on the sample registry. -/
theorem claim4_amended_witness :
    resolveSelected envEchoSelected
        (GuiArgs.mk ["AAPL"] "2026-01-01" "2026-06-01" 100000 0 (some [])) =
      envEchoSelected.allAnalysts ∧
    create_workflow sampleRegistry (some []) =
      Except.ok (Graph.mk
        ["start_node", "risk_management_agent", "portfolio_manager"]
        [("risk_management_agent", "portfolio_manager"),
         ("portfolio_manager", ENDKEY)]
        (some "start_node")) :=
  ⟨claim4_amended_empty_selection_defaults.1 (List String) envEchoSelected
     (GuiArgs.mk ["AAPL"] "2026-01-01" "2026-06-01" 100000 0 (some [])) rfl,
   claim4_amended_empty_selection_defaults.2 sampleRegistry⟩

theorem mem_workflow_edges {nm : String → String} {sel : List String}
    {e : String × String} :
    (e ∈ (sel.map (fun k => ("start_node", nm k))) ++
        (sel.map (fun k => (nm k, "risk_management_agent")) ++
          [("risk_management_agent", "portfolio_manager"),
           ("portfolio_manager", ENDKEY)])) ↔
      ((∃ k ∈ sel, e = ("start_node", nm k)) ∨
       (∃ k ∈ sel, e = (nm k, "risk_management_agent")) ∨
       e = ("risk_management_agent", "portfolio_manager") ∨
       e = ("portfolio_manager", ENDKEY)) := by
  simp only [List.mem_append, List.mem_map, List.mem_cons,
    List.not_mem_nil, or_false]
  constructor
  · rintro (⟨k, hk, rfl⟩ | ⟨k, hk, rfl⟩ | h | h)
    · exact Or.inl ⟨k, hk, rfl⟩
    · exact Or.inr (Or.inl ⟨k, hk, rfl⟩)
    · exact Or.inr (Or.inr (Or.inl h))
    · exact Or.inr (Or.inr (Or.inr h))
  · rintro (⟨k, hk, rfl⟩ | ⟨k, hk, rfl⟩ | rfl | rfl)
    · exact Or.inl ⟨k, hk, rfl⟩
    · exact Or.inr (Or.inl ⟨k, hk, rfl⟩)
    · exact Or.inr (Or.inr (Or.inl rfl))
    · exact Or.inr (Or.inr (Or.inr rfl))

/-- C5: for every non-empty selection of distinct valid analyst keys,
the builder yields a plan with exactly `1 + N + 2` nodes whose edges
between plan nodes are exactly start→analyst (each), analyst→risk
(each) and risk→portfolio; the only further edge is the terminal
marker risk-free edge portfolio→`END` (langgraph's termination
sentinel, not a plan node), and no edge joins two analyst nodes. -/
theorem claim5_workflow_shape {reg : Registry} {nm : String → String}
    {sel : List String}
    (hne : sel ≠ [])
    (hndk : sel.Nodup)
    (hlk : ∀ k ∈ sel, List.lookup k reg = some (nm k))
    (hnd : (sel.map nm).Nodup)
    (hres : ∀ k ∈ sel, nm k ∉ fixedNodeNames) :
    ∃ g, create_workflow reg (some sel) = Except.ok g ∧
      g.nodes.length = 1 + sel.length + 2 ∧
      (∀ e, e ∈ g.edges ↔
        ((∃ k ∈ sel, e = ("start_node", nm k)) ∨
         (∃ k ∈ sel, e = (nm k, "risk_management_agent")) ∨
         e = ("risk_management_agent", "portfolio_manager") ∨
         e = ("portfolio_manager", ENDKEY))) ∧
      (∀ k₁ ∈ sel, ∀ k₂ ∈ sel, (nm k₁, nm k₂) ∉ g.edges) := by
  refine ⟨_, create_workflow_closed hlk hnd hres, ?_, ?_, ?_⟩
  · simp only [List.length_cons, List.length_append, List.length_map,
      List.length_nil]
    omega
  · intro e
    exact mem_workflow_edges
  · intro k₁ h₁ k₂ h₂ hmem
    rcases mem_workflow_edges.mp hmem with ⟨k, hk, h⟩ | ⟨k, hk, h⟩ | h | h
    · have h₁' : nm k₁ = "start_node" := congrArg Prod.fst h
      exact hres k₁ h₁ (by rw [h₁']; simp [fixedNodeNames])
    · have h₂' : nm k₂ = "risk_management_agent" := congrArg Prod.snd h
      exact hres k₂ h₂ (by rw [h₂']; simp [fixedNodeNames])
    · have h₁' : nm k₁ = "risk_management_agent" := congrArg Prod.fst h
      exact hres k₁ h₁ (by rw [h₁']; simp [fixedNodeNames])
    · have h₁' : nm k₁ = "portfolio_manager" := congrArg Prod.fst h
      exact hres k₁ h₁ (by rw [h₁']; simp [fixedNodeNames])

/-- Witness for C5: the two-analyst selection on the sample registry
yields the five-node plan with exactly the claimed edges. -/
theorem claim5_witness :
    ∃ g, create_workflow sampleRegistry
        (some ["warren_buffett", "peter_lynch"]) = Except.ok g ∧
      g.nodes.length = 1 + (["warren_buffett", "peter_lynch"] : List String).length + 2 ∧
      (∀ e, e ∈ g.edges ↔
        ((∃ k ∈ (["warren_buffett", "peter_lynch"] : List String),
            e = ("start_node", k ++ "_agent")) ∨
         (∃ k ∈ (["warren_buffett", "peter_lynch"] : List String),
            e = (k ++ "_agent", "risk_management_agent")) ∨
         e = ("risk_management_agent", "portfolio_manager") ∨
         e = ("portfolio_manager", ENDKEY))) ∧
      (∀ k₁ ∈ (["warren_buffett", "peter_lynch"] : List String),
        ∀ k₂ ∈ (["warren_buffett", "peter_lynch"] : List String),
          (k₁ ++ "_agent", k₂ ++ "_agent") ∉ g.edges) :=
  @claim5_workflow_shape sampleRegistry (fun k => k ++ "_agent")
    ["warren_buffett", "peter_lynch"]
    (by decide) (by decide) (by decide) (by decide) (by decide)

/-- C6: graph construction is deterministic and order-insensitive —
two selections listing the same distinct keys yield plans with equal
node counts and equal edge sets. -/
theorem claim6_build_order_insensitive {reg : Registry} {nm : String → String}
    {sel₁ sel₂ : List String}
    (hnd₁ : sel₁.Nodup) (hnd₂ : sel₂.Nodup)
    (hset : sel₁.toFinset = sel₂.toFinset)
    (hlk : ∀ k ∈ sel₁, List.lookup k reg = some (nm k))
    (hmap₁ : (sel₁.map nm).Nodup) (hmap₂ : (sel₂.map nm).Nodup)
    (hres : ∀ k ∈ sel₁, nm k ∉ fixedNodeNames) :
    ∃ g₁ g₂, create_workflow reg (some sel₁) = Except.ok g₁ ∧
      create_workflow reg (some sel₂) = Except.ok g₂ ∧
      g₁.nodes.length = g₂.nodes.length ∧
      g₁.edges.toFinset = g₂.edges.toFinset := by
  have hmem : ∀ k, k ∈ sel₂ ↔ k ∈ sel₁ := by
    intro k
    rw [← List.mem_toFinset, ← List.mem_toFinset, hset]
  have hlk₂ : ∀ k ∈ sel₂, List.lookup k reg = some (nm k) :=
    fun k hk => hlk k ((hmem k).mp hk)
  have hres₂ : ∀ k ∈ sel₂, nm k ∉ fixedNodeNames :=
    fun k hk => hres k ((hmem k).mp hk)
  have hlen : sel₁.length = sel₂.length := by
    rw [← List.toFinset_card_of_nodup hnd₁, ← List.toFinset_card_of_nodup hnd₂, hset]
  refine ⟨_, _, create_workflow_closed hlk hmap₁ hres,
    create_workflow_closed hlk₂ hmap₂ hres₂, ?_, ?_⟩
  · simp only [List.length_cons, List.length_append, List.length_map, hlen]
  · ext e
    simp only [List.mem_toFinset, mem_workflow_edges, hmem]

/-- Witness for C6: the same two keys in both orders give plans of
equal size and equal edge sets on the sample registry. -/
theorem claim6_witness :
    ∃ g₁ g₂, create_workflow sampleRegistry
        (some ["warren_buffett", "peter_lynch"]) = Except.ok g₁ ∧
      create_workflow sampleRegistry
        (some ["peter_lynch", "warren_buffett"]) = Except.ok g₂ ∧
      g₁.nodes.length = g₂.nodes.length ∧
      g₁.edges.toFinset = g₂.edges.toFinset :=
  @claim6_build_order_insensitive sampleRegistry (fun k => k ++ "_agent")
    ["warren_buffett", "peter_lynch"] ["peter_lynch", "warren_buffett"]
    (by decide) (by decide) (by decide) (by decide) (by decide) (by decide)
    (by decide)

/-- C2: on a graph-build failure (unknown key or compile failure) the
façade attempts exactly one fallback, rebuilding with the fixed
three-key default set — the build-attempt trace is exactly
`[selected, defaultAnalysts]`, never longer; if the fallback build
succeeds the run continues with the default set, and if it also fails
that failure surfaces to the caller as the error envelope. -/
theorem claim2_single_fallback {σ : Type} (env : GuiEnv σ) (a : GuiArgs)
    (sd ed : String) (e₁ : PyExc)
    (hd : resolveDates env.today a.start_date a.end_date = Except.ok (sd, ed))
    (h1 : buildApp env (resolveSelected env a) = Except.error e₁) :
    buildAttemptsOf (runHedgeFundGui env a).2 =
      [resolveSelected env a, defaultAnalysts] ∧
    (∀ u, buildApp env defaultAnalysts = Except.ok u →
      (runHedgeFundGui env a).1 =
        outcomeOfRun (runHedgeFund env.reg env.compileApp env.invoke env.decode
          a.tickers sd ed
          (mkPortfolio a.tickers a.initial_cash a.margin_requirement)
          defaultAnalysts)) ∧
    (∀ e₂, buildApp env defaultAnalysts = Except.error e₂ →
      (runHedgeFundGui env a).1 =
        GuiOutcome.errorEnvelope (excMessage e₂) (tracebackOf e₂)) := by
  cases h2 : buildApp env defaultAnalysts with
  | ok u =>
    cases u
    have hcore := guiCore_fallback_ok hd h1 h2
    refine ⟨?_, ?_, ?_⟩
    · simp [runHedgeFundGui, hcore, buildAttemptsOf]
    · intro u _
      simp [runHedgeFundGui, hcore]
    · intro e₂ he₂
      exact absurd he₂ (by simp)
  | error e₂ =>
    have hcore := guiCore_fallback_error hd h1 h2
    refine ⟨?_, ?_, ?_⟩
    · simp [runHedgeFundGui, hcore, buildAttemptsOf]
    · intro u hu
      exact absurd hu (by simp)
    · intro e₂' he₂
      injection he₂ with he₂
      subst he₂
      simp [runHedgeFundGui, hcore, outcomeOfRun]

/-- A façade environment whose langgraph compiler always fails, so
that both the selected build and the fallback build fail. -/
def envCompileBoom : GuiEnv Nat :=
  GuiEnv.mk sampleRegistry (sampleRegistry.map Prod.fst) (Date.mk 2026 10 12)
    (fun _ => Except.error (PyExc.exc "compile failure"))
    (fun _ => Except.ok (FinalState.mk (PyVal.pyNonStr "None") (0 : Nat)))
    jsonLoads

/-- The façade call of the C2 scenario: a selection containing an
unregistered key. -/
def argsBogusKey : GuiArgs :=
  GuiArgs.mk ["AAPL"] "2026-01-01" "2026-06-01" 100000 0
    (some ["bogus_key"])

/-- Witness for C2: an unknown selected key fails the first build
(`KeyError`), the single fallback to the default set fails to compile,
and the caller receives that second failure as the error envelope
after exactly the two recorded build attempts. -/
theorem claim2_witness :
    buildAttemptsOf (runHedgeFundGui envCompileBoom argsBogusKey).2 =
      [["bogus_key"], defaultAnalysts] ∧
    (runHedgeFundGui envCompileBoom argsBogusKey).1 =
      GuiOutcome.errorEnvelope "compile failure"
        (tracebackOf (PyExc.exc "compile failure")) :=
  ⟨(claim2_single_fallback envCompileBoom argsBogusKey
      "2026-01-01" "2026-06-01" (PyExc.keyError "bogus_key") rfl rfl).1,
   (claim2_single_fallback envCompileBoom argsBogusKey
      "2026-01-01" "2026-06-01" (PyExc.keyError "bogus_key") rfl rfl).2.2
     (PyExc.exc "compile failure") rfl⟩

/-- A façade environment used by the date-handling scenarios. -/
def envLenient : GuiEnv Nat :=
  GuiEnv.mk sampleRegistry (sampleRegistry.map Prod.fst) (Date.mk 2026 10 12)
    (fun _ => Except.ok ())
    (fun _ => Except.ok (FinalState.mk (PyVal.pyNonStr "None") (0 : Nat)))
    jsonLoads

/-- Counterexample to C8: "2024-1-5" is not in `YYYY-MM-DD` form (the
month and day lack their leading zeros), yet the code accepts it —
`strptime`'s `%Y-%m-%d` pattern makes the leading zeros optional — so
the claim that every supplied date not in `YYYY-MM-DD` format is
rejected is false: the run proceeds normally with this start date. -/
theorem claim8_counterexample :
    strptimeYmd "2024-1-5" = some (Date.mk 2024 1 5) ∧
    resolveDates (Date.mk 2026 10 12) "2024-1-5" "2024-02-01" =
      Except.ok ("2024-1-5", "2024-02-01") ∧
    (runHedgeFundGui envLenient
        (GuiArgs.mk ["AAPL"] "2024-1-5" "2024-02-01" 100000 0
          (some ["warren_buffett"]))).1 =
      GuiOutcome.result (RunResult.mk none 0) :=
  ⟨rfl, rfl, rfl⟩

/-- C8 amended: date resolution is deterministic — an empty end date
defaults to today, an empty start date defaults to three months
before the resolved end date (day clamped to the target month's
length), except that three months before a resolved end date in year
1 with month ≤ 3 falls below `datetime.MINYEAR`, so the subtraction
raises `ValueError("year 0 is out of range")`, which surfaces as the
error envelope with no stage run. A supplied date is validated with
Python's lenient `%Y-%m-%d` parse (four-digit year, month and day
optionally unpadded, `\d` positions admitting Unicode decimal digits,
valid calendar date); a date failing that parse is rejected before
any build attempt or pipeline stage runs (empty trace, error
envelope). -/
theorem claim8_amended_date_resolution :
    (∀ today d₂ : Date, strptimeYmd (formatDate today) = some today →
      monthsBack3 today = Except.ok d₂ →
      resolveDates today "" "" =
        Except.ok (formatDate d₂, formatDate today)) ∧
    (∀ (today : Date) (ed : String) (d d₂ : Date), ed ≠ "" →
      strptimeYmd ed = some d → monthsBack3 d = Except.ok d₂ →
      resolveDates today "" ed = Except.ok (formatDate d₂, ed)) ∧
    (∀ (today : Date) (ed : String) (d : Date) (e : PyExc), ed ≠ "" →
      strptimeYmd ed = some d → monthsBack3 d = Except.error e →
      resolveDates today "" ed = Except.error e ∧
      ∀ (σ : Type) (env : GuiEnv σ) (a : GuiArgs),
        env.today = today → a.start_date = "" → a.end_date = ed →
        runHedgeFundGui env a =
          (GuiOutcome.errorEnvelope (excMessage e) (tracebackOf e), [])) ∧
    (∀ (today : Date) (sd ed : String), sd ≠ "" → strptimeYmd sd = none →
      resolveDates today sd ed =
        Except.error (PyExc.valueError "开始日期必须为YYYY-MM-DD格式") ∧
      ∀ (σ : Type) (env : GuiEnv σ) (a : GuiArgs),
        env.today = today → a.start_date = sd → a.end_date = ed →
        runHedgeFundGui env a =
          (GuiOutcome.errorEnvelope "开始日期必须为YYYY-MM-DD格式"
            (tracebackOf (PyExc.valueError "开始日期必须为YYYY-MM-DD格式")), [])) ∧
    (∀ (today : Date) (sd ed : String),
      (sd = "" ∨ (∃ d, strptimeYmd sd = some d)) → ed ≠ "" →
      strptimeYmd ed = none →
      resolveDates today sd ed =
        Except.error (PyExc.valueError "结束日期必须为YYYY-MM-DD格式")) := by
  refine ⟨?_, ?_, ?_, ?_, ?_⟩
  · intro today d₂ hrt hmb
    simp [resolveDates, checkDateFormat, hrt, hmb]
  · intro today ed d d₂ hne hd hmb
    simp [resolveDates, checkDateFormat, hne, hd, hmb]
  · intro today ed d e hne hd hmb
    have hres : resolveDates today "" ed = Except.error e := by
      simp [resolveDates, checkDateFormat, hne, hd, hmb]
    refine ⟨hres, ?_⟩
    intro σ env a h₁ h₂ h₃
    have hd₂ : resolveDates env.today a.start_date a.end_date =
        Except.error e := by
      rw [h₁, h₂, h₃]
      exact hres
    have hcore := guiCore_dates_error hd₂
    simp [runHedgeFundGui, hcore, outcomeOfRun]
  · intro today sd ed hne hnone
    have hres : resolveDates today sd ed =
        Except.error (PyExc.valueError "开始日期必须为YYYY-MM-DD格式") := by
      simp [resolveDates, checkDateFormat, hne, hnone]
    refine ⟨hres, ?_⟩
    intro σ env a h₁ h₂ h₃
    have hd : resolveDates env.today a.start_date a.end_date =
        Except.error (PyExc.valueError "开始日期必须为YYYY-MM-DD格式") := by
      rw [h₁, h₂, h₃]
      exact hres
    have hcore := guiCore_dates_error hd
    simp [runHedgeFundGui, hcore, outcomeOfRun, excMessage]
  · intro today sd ed hsd hne hnone
    rcases hsd with hsd | ⟨d, hd⟩
    · subst hsd
      simp [resolveDates, checkDateFormat, hne, hnone]
    · by_cases hsd0 : sd = ""
      · subst hsd0
        simp [resolveDates, checkDateFormat, hne, hnone]
      · simp [resolveDates, checkDateFormat, hsd0, hd, hne, hnone]

/-- Witness for the amended C8: today 2026-10-12 gives the default
window 2026-07-12 … 2026-10-12; an end date 2024-05-31 gives the
clamped start 2024-02-29 (leap year); the unpadded Unicode-digit end
date "2024-05-1٢" (Arabic-Indic two) is accepted as May 12; an end
date 0001-01-15 with empty start makes the three-month subtraction
fail with the year-0 range error, surfaced as the envelope with an
empty trace; an invalid month 13 in the start date and an invalid day
Feb 30 in the end date are both rejected, the former with an empty
trace and the error envelope. -/
theorem claim8_amended_witness :
    resolveDates (Date.mk 2026 10 12) "" "" =
      Except.ok ("2026-07-12", "2026-10-12") ∧
    resolveDates (Date.mk 2026 10 12) "" "2024-05-31" =
      Except.ok ("2024-02-29", "2024-05-31") ∧
    resolveDates (Date.mk 2026 10 12) "" "2024-05-1٢" =
      Except.ok ("2024-02-12", "2024-05-1٢") ∧
    resolveDates (Date.mk 2026 10 12) "" "0001-01-15" =
      Except.error (PyExc.valueError "year 0 is out of range") ∧
    runHedgeFundGui envLenient
        (GuiArgs.mk ["AAPL"] "" "0001-01-15" 100000 0
          (some ["warren_buffett"])) =
      (GuiOutcome.errorEnvelope "year 0 is out of range"
        (tracebackOf (PyExc.valueError "year 0 is out of range")), []) ∧
    resolveDates (Date.mk 2026 10 12) "2024-13-01" "" =
      Except.error (PyExc.valueError "开始日期必须为YYYY-MM-DD格式") ∧
    runHedgeFundGui envLenient
        (GuiArgs.mk ["AAPL"] "2024-13-01" "" 100000 0
          (some ["warren_buffett"])) =
      (GuiOutcome.errorEnvelope "开始日期必须为YYYY-MM-DD格式"
        (tracebackOf (PyExc.valueError "开始日期必须为YYYY-MM-DD格式")), []) ∧
    resolveDates (Date.mk 2026 10 12) "2026-01-01" "2024-02-30" =
      Except.error (PyExc.valueError "结束日期必须为YYYY-MM-DD格式") :=
  ⟨claim8_amended_date_resolution.1 (Date.mk 2026 10 12) (Date.mk 2026 7 12)
     rfl rfl,
   claim8_amended_date_resolution.2.1 (Date.mk 2026 10 12) "2024-05-31"
     (Date.mk 2024 5 31) (Date.mk 2024 2 29) (by decide) rfl rfl,
   claim8_amended_date_resolution.2.1 (Date.mk 2026 10 12) "2024-05-1٢"
     (Date.mk 2024 5 12) (Date.mk 2024 2 12) (by decide) rfl rfl,
   (claim8_amended_date_resolution.2.2.1 (Date.mk 2026 10 12) "0001-01-15"
     (Date.mk 1 1 15) (PyExc.valueError "year 0 is out of range")
     (by decide) rfl rfl).1,
   (claim8_amended_date_resolution.2.2.1 (Date.mk 2026 10 12) "0001-01-15"
     (Date.mk 1 1 15) (PyExc.valueError "year 0 is out of range")
     (by decide) rfl rfl).2 Nat envLenient
     (GuiArgs.mk ["AAPL"] "" "0001-01-15" 100000 0 (some ["warren_buffett"]))
     rfl rfl rfl,
   (claim8_amended_date_resolution.2.2.2.1 (Date.mk 2026 10 12) "2024-13-01" ""
     (by decide) rfl).1,
   (claim8_amended_date_resolution.2.2.2.1 (Date.mk 2026 10 12) "2024-13-01" ""
     (by decide) rfl).2 Nat envLenient
     (GuiArgs.mk ["AAPL"] "2024-13-01" "" 100000 0 (some ["warren_buffett"]))
     rfl rfl rfl,
   claim8_amended_date_resolution.2.2.2.2 (Date.mk 2026 10 12) "2026-01-01"
     "2024-02-30" (Or.inr ⟨Date.mk 2026 1 1, rfl⟩) (by decide) rfl⟩

/-- C9: the façade never lets an exception cross its boundary — every
call of `run_from_gui` returns either a result or the error envelope
derived from the caught exception, and every failure mode of the
error taxonomy, raised as its Python exception, is rendered as such
an envelope. -/
theorem claim9_facade_never_raises {σ : Type} (env : GuiEnv σ) (a : GuiArgs) :
    ((∃ r, (runFromGui env a).1 = GuiOutcome.result r) ∨
     (∃ e, (runHedgeFundGuiCore env a).1 = Except.error e ∧
       (runFromGui env a).1 =
         GuiOutcome.errorEnvelope (excMessage e) (tracebackOf e))) ∧
    (∀ t : PipelineError,
      @outcomeOfRun σ (Except.error (pipelineErrorToExc t)) =
        GuiOutcome.errorEnvelope (excMessage (pipelineErrorToExc t))
          (tracebackOf (pipelineErrorToExc t))) := by
  constructor
  · cases hres : (runHedgeFundGuiCore env a).1 with
    | ok r =>
      left
      exact ⟨r, by simp [runFromGui, runHedgeFundGui, hres, outcomeOfRun]⟩
    | error e =>
      right
      exact ⟨e, rfl, by simp [runFromGui, runHedgeFundGui, hres, outcomeOfRun]⟩
  · intro t
    cases t <;> rfl

end AiHedgeFund
